import Mathlib

/-!
Verification of the gdrive-cloud-sync backup script (`src/main.py`) against its
natural-language specification.

The remote Google Drive service is modelled as an immutable snapshot of files
(`DriveService`): listing calls filter that snapshot, pagination is modelled by
the service returning at most `pageSize` entries per listing call (the code
issues a single `files().list(...).execute()` call per listing and never passes
a page token, so it only ever sees the first page), deletions and the upload
may raise, which is modelled by explicit failure sets / flags on the service.
Unbounded Python call recursion is modelled with a structural `fuel` counter:
a result of `none` means the recursion exceeded every finite depth bound, i.e.
the Python code would not terminate (or would exhaust the interpreter stack).
-/

/-- A file or folder known to the remote Drive service, as seen by the
`files().list` / `files().get_media` / `files().delete` API surface used in
`src/main.py`. -/
structure DFile where
  id : String
  name : String
  mimeType : String
  parents : List String
  trashed : Bool
  createdTime : Nat
  content : List Nat
deriving Repr, DecidableEq

/-- The remote service and its failure behaviour for one run.  `pageSize` is
the number of entries the service returns in the first page of a listing
(the Drive API caps pages, by default at 100); `failingDeletes` are the file
ids whose `files().delete(...).execute()` call raises; `uploadFails` says
whether `files().create(...).execute()` raises; `newFileId` is the id the
server assigns to an uploaded file. -/
structure DriveService where
  files : List DFile
  pageSize : Nat
  failingDeletes : List String
  uploadFails : Bool
  newFileId : String
deriving Repr, DecidableEq

/-- Helper for `strContains`: does `pat` occur as a contiguous run in the
character list? -/
def strContainsAux (pat : List Char) : List Char → Bool
  | [] => pat.isEmpty
  | c :: cs => pat.isPrefixOf (c :: cs) || strContainsAux pat cs

/-- String containment test, modelling the Drive query operator
`name contains s`. -/
def strContains (s pat : String) : Bool :=
  strContainsAux pat.toList s.toList

/-- Embeds `os.path.join(current_path, item.name)` (POSIX, two arguments):
an absolute second component replaces the first; a nonempty first component
gets a `/` separator unless it already ends in one. -/
def pathJoin (a b : String) : String :=
  if b.toList.head? = some '/' then b
  else if a = "" then b
  else if a.toList.getLast? = some '/' then a ++ b
  else a ++ "/" ++ b

/-- All children the walker's query matches, in the service's listing order:
the query on `src/main.py` line 49 is `'{folder_id}' in parents and
trashed = false`. -/
def listChildren (svc : DriveService) (folderId : String) : List DFile :=
  svc.files.filter (fun f => f.parents.contains folderId && !f.trashed)

/-- One entry written to the tar archive: `tarinfo.name`, `tarinfo.size`, and
the content bytes `tar.addfile` copied from the file object. -/
structure ArchiveEntry where
  name : String
  size : Nat
  written : List Nat
deriving Repr, DecidableEq

/-- Embeds `src/main.py` lines 59-69: `files().get_media` plus the
`MediaIoBaseDownload` loop leave the file's full content in `fh`; then
`tarinfo.size = fh.getbuffer().nbytes` and `tar.addfile(tarinfo, fh)` copies
exactly `tarinfo.size` bytes from `fh` (after `fh.seek(0)`). -/
def downloadEntry (itemPath : String) (item : DFile) : ArchiveEntry :=
  let fh := item.content
  let size := fh.length
  { name := itemPath, size := size, written := fh.take size }

/-- The body of the walker's per-item loop (`src/main.py` lines 54-69):
`walkRec` is the recursive call into a sub-folder; a file item is downloaded
and becomes a tar entry.  `acc` carries the entries produced by the items to
the right of this one (the loop is modelled as a right fold so that entries
keep the listing order). -/
def walkStep (walkRec : String → String → Option (List ArchiveEntry))
    (currentPath : String) (item : DFile) (acc : Option (List ArchiveEntry)) :
    Option (List ArchiveEntry) :=
  match acc with
  | none => none
  | some rest =>
    let itemPath := pathJoin currentPath item.name
    if item.mimeType = "application/vnd.google-apps.folder" then
      match walkRec item.id itemPath with
      | none => none
      | some sub => some (sub ++ rest)
    else
      some (downloadEntry itemPath item :: rest)

/-- Embeds `add_files_to_archive` (`src/main.py` lines 44-69).  The code
reads a single listing page (it requests the `nextPageToken` field but never
passes a page token back), then for each item either recurses into a
sub-folder or downloads the file and appends a tar entry.  `fuel` bounds the
recursion depth; `none` means the bound was exceeded at some descent, i.e. the
unbounded Python recursion reaches at least that depth. -/
def add_files_to_archive (svc : DriveService) : Nat → String → String → Option (List ArchiveEntry)
  | 0, _, _ => none
  | Nat.succ fuel, folderId, currentPath =>
    ((listChildren svc folderId).take svc.pageSize).foldr
      (walkStep (add_files_to_archive svc fuel) currentPath) (some [])

/-- A wall-clock instant as `datetime.datetime.now()` returns it.  The
`datetime` type guarantees `1 <= month <= 12`, `1 <= day <= 31`,
`hour < 24`, `minute < 60`, `second < 60`, `micro < 1000000`; theorems that
need those ranges take them as hypotheses. -/
structure Timestamp where
  year : Nat
  month : Nat
  day : Nat
  hour : Nat
  minute : Nat
  second : Nat
  micro : Nat
deriving Repr, DecidableEq

/-- The ASCII digit character for `n % 10`. -/
def digitChar (n : Nat) : Char :=
  Char.ofNat (48 + n % 10)

/-- Two-character zero-padded decimal, as `strftime` renders `%m`, `%d`,
`%H`, `%M`, `%S` (whose values are below 100). -/
def pad2 (n : Nat) : List Char :=
  [digitChar (n / 10), digitChar n]

/-- Four-character zero-padded decimal, as `strftime` renders `%Y` for the
years `datetime` supports (1 to 9999). -/
def pad4 (n : Nat) : List Char :=
  [digitChar (n / 1000), digitChar (n / 100), digitChar (n / 10), digitChar n]

/-- Six-character zero-padded decimal, as `strftime` renders `%f`
(microseconds, below 1000000). -/
def pad6 (n : Nat) : List Char :=
  [digitChar (n / 100000), digitChar (n / 10000), digitChar (n / 1000),
    digitChar (n / 100), digitChar (n / 10), digitChar n]

/-- Embeds `now.strftime('%Y-%m-%d_%H-%M-%S-%f')` from `src/main.py`
line 28. -/
def strftimeStamp (t : Timestamp) : List Char :=
  pad4 t.year ++ '-' :: pad2 t.month ++ '-' :: pad2 t.day ++
    '_' :: pad2 t.hour ++ '-' :: pad2 t.minute ++ '-' :: pad2 t.second ++
    '-' :: pad6 t.micro

/-- Embeds `src/main.py` line 28: the strftime stamp with its last three
characters sliced off (`[:-3]`, truncating microseconds to milliseconds),
then `"_" + backup_name + ".tar.gz"`. -/
def backup_file_name (t : Timestamp) (backupName : String) : String :=
  String.mk (strftimeStamp t).dropLast.dropLast.dropLast ++ "_" ++ backupName ++ ".tar.gz"

/-- The remote file that a successful `files().create(body=..., media_body=
MediaFileUpload(..., mimetype='application/gzip'))` call produces
(`src/main.py` lines 35-40).  Server-assigned metadata other than the
requested name, parent and MIME type (`createdTime`, content) is not
consulted by any claim and is modelled as empty. -/
def uploadedFile (svc : DriveService) (destFolderId uploadName : String) : DFile :=
  { id := svc.newFileId, name := uploadName, mimeType := "application/gzip",
    parents := [destFolderId], trashed := false, createdTime := 0, content := [] }

/-- Observable outcome of one `backup_folder` call: the name it computed, the
entries it wrote into `/tmp/backup.tar.gz`, the remote file the upload
created (if it succeeded), whether `os.remove` ran on the staging file, and
whether an exception propagated out of the call. -/
structure BackupResult where
  backupFileName : String
  entries : List ArchiveEntry
  uploaded : Option DFile
  stagingRemoved : Bool
  raised : Bool
deriving Repr, DecidableEq

/-- Embeds the archive-construction loop of `backup_folder`
(`src/main.py` lines 31-33): each source folder id is walked with an empty
path prefix and the entries are appended in order. -/
def walkAll (svc : DriveService) (fuel : Nat) : List String → Option (List ArchiveEntry)
  | [] => some []
  | fid :: rest =>
    match add_files_to_archive svc fuel fid "" with
    | none => none
    | some es =>
      match walkAll svc fuel rest with
      | none => none
      | some more => some (es ++ more)

/-- Embeds `backup_folder` (`src/main.py` lines 12-42).  Note that
`os.remove(archive_file_path)` on line 41 runs only after
`files().create(...).execute()` on line 40 returned without raising: there is
no `try`/`finally`, so an upload failure propagates with the staging file
still on disk.  A `none` result means the walk itself does not terminate. -/
def backup_folder (svc : DriveService) (fuel : Nat) (sourceFolderIds : List String)
    (destFolderId backupName : String) (now : Timestamp) : Option BackupResult :=
  let uploadName := backup_file_name now backupName
  match walkAll svc fuel sourceFolderIds with
  | none => none
  | some entries =>
    if svc.uploadFails then
      some { backupFileName := uploadName, entries := entries, uploaded := none,
             stagingRemoved := false, raised := true }
    else
      some { backupFileName := uploadName, entries := entries,
             uploaded := some (uploadedFile svc destFolderId uploadName),
             stagingRemoved := true, raised := false }

/-- The files matched by the retention query on `src/main.py` line 78:
`'{dest_folder_id}' in parents and mimeType='application/zip' and name
contains '{backup_name}'` (note: MIME type `application/zip`, and no
`trashed` clause). -/
def pruneMatches (svc : DriveService) (destFolderId backupName : String) : List DFile :=
  svc.files.filter (fun f =>
    f.parents.contains destFolderId && f.mimeType == "application/zip" &&
      strContains f.name backupName)

/-- Insert a file into a list that is sorted by `createdTime` descending. -/
def insertDesc (f : DFile) : List DFile → List DFile
  | [] => [f]
  | g :: gs => if g.createdTime ≤ f.createdTime then f :: g :: gs else g :: insertDesc f gs

/-- Server-side `orderBy='createdTime desc'` (`src/main.py` line 79),
modelled as an insertion sort by `createdTime` descending. -/
def sortByCreatedDesc : List DFile → List DFile
  | [] => []
  | f :: fs => insertDesc f (sortByCreatedDesc fs)

/-- Embeds the deletion loop of `delete_old_backups` (`src/main.py` lines
87-88): the ids are passed to `files().delete(fileId=...).execute()` in
order; the loop body has no `try`/`except`, so the first raising call aborts
the loop and the exception propagates.  Returns the ids actually passed to a
delete call, and the id whose call raised (if any). -/
def deleteLoop (svc : DriveService) : List DFile → List String × Option String
  | [] => ([], none)
  | f :: fs =>
    if svc.failingDeletes.contains f.id then ([f.id], some f.id)
    else
      let r := deleteLoop svc fs
      (f.id :: r.1, r.2)

/-- Observable outcome of one `delete_old_backups` call: the file ids whose
deletion was attempted, the id whose deletion raised (if any), and the
Python return value — the function body has no `return` statement, so the
call evaluates to `None`, modelled as `none` at the contract's
`Option Nat` type. -/
structure PruneResult where
  attempted : List String
  raised : Option String
  retVal : Option Nat
deriving Repr, DecidableEq

/-- Embeds `delete_old_backups` (`src/main.py` lines 71-88): one listing call
(first page only) ordered by creation time descending; if more than
`versions_to_keep` files came back, every file past index `versions_to_keep`
is deleted in order. -/
def delete_old_backups (svc : DriveService) (destFolderId : String)
    (versionsToKeep : Nat) (backupName : String) : PruneResult :=
  let files := (sortByCreatedDesc (pruneMatches svc destFolderId backupName)).take svc.pageSize
  if versionsToKeep < files.length then
    let r := deleteLoop svc (files.drop versionsToKeep)
    { attempted := r.1, raised := r.2, retVal := none }
  else
    { attempted := [], raised := none, retVal := none }

/-- The remote state after a successful upload added the new archive file. -/
def afterUpload (svc : DriveService) (f : DFile) : DriveService :=
  { svc with files := svc.files ++ [f] }

/-- Observable outcome of one `main` call (`src/main.py` lines 98-119):
the backup stage's outcome, the retention stage's outcome when it was
reached, and the HTTP response value — `some` of the fixed success string
when line 119 was reached, `none` when an exception propagated out of
`main` instead. -/
structure MainResult where
  backup : BackupResult
  prune : Option PruneResult
  response : Option String
deriving Repr, DecidableEq

/-- Embeds `main` (`src/main.py` lines 98-119; named `main_handler` here
because Lean reserves `main`): `backup_folder` then `delete_old_backups` then
`return 'Backup completed successfully!'`, with no exception handling around
either call.  The retention stage runs against the remote state that already
contains the uploaded archive. -/
def main_handler (svc : DriveService) (fuel : Nat) (sourceFolderIds : List String)
    (destFolderId backupName : String) (versionsToKeep : Nat) (now : Timestamp) :
    Option MainResult :=
  match backup_folder svc fuel sourceFolderIds destFolderId backupName now with
  | none => none
  | some b =>
    if b.raised then
      some { backup := b, prune := none, response := none }
    else
      let svcAfter :=
        match b.uploaded with
        | some f => afterUpload svc f
        | none => svc
      let pr := delete_old_backups svcAfter destFolderId versionsToKeep backupName
      if pr.raised.isSome then
        some { backup := b, prune := some pr, response := none }
      else
        some { backup := b, prune := some pr,
               response := some "Backup completed successfully!" }

/-- Numeric value of an ASCII digit character, `none` for a non-digit. -/
def digitVal (c : Char) : Option Nat :=
  if c.isDigit then some (c.toNat - 48) else none

/-- Read two decimal digits off the front of a character list. -/
def parse2 : List Char → Option (Nat × List Char)
  | a :: b :: rest =>
    match digitVal a, digitVal b with
    | some x, some y => some (10 * x + y, rest)
    | _, _ => none
  | _ => none

/-- Read three decimal digits off the front of a character list. -/
def parse3 : List Char → Option (Nat × List Char)
  | a :: b :: c :: rest =>
    match digitVal a, digitVal b, digitVal c with
    | some x, some y, some z => some (100 * x + 10 * y + z, rest)
    | _, _, _ => none
  | _ => none

/-- Read four decimal digits off the front of a character list. -/
def parse4 : List Char → Option (Nat × List Char)
  | a :: b :: c :: d :: rest =>
    match digitVal a, digitVal b, digitVal c, digitVal d with
    | some w, some x, some y, some z => some (1000 * w + 100 * x + 10 * y + z, rest)
    | _, _, _, _ => none
  | _ => none

/-- Consume one expected character off the front of a character list. -/
def expectChar (c : Char) : List Char → Option (List Char)
  | a :: rest => if a = c then some rest else none
  | _ => none

/-- Remove an expected suffix from a character list, or fail. -/
def dropSuffix (tail cs : List Char) : Option (List Char) :=
  if (cs.reverse).take tail.length = tail.reverse then
    some (cs.take (cs.length - tail.length))
  else none

/-- A parsed backup file name: the timestamp fields encoded in the name
(milliseconds, not microseconds) and the backup label. -/
structure ParsedBackupName where
  year : Nat
  month : Nat
  day : Nat
  hour : Nat
  minute : Nat
  second : Nat
  milli : Nat
  label : String
deriving Repr, DecidableEq

/-- Modelled from the spec: `src/main.py` only produces backup file names
(line 28) and never parses one, so the parser half of the naming round-trip
in spec section 8 is missing from the source.  This parser follows the
spec's stated format `YYYY-MM-DD_HH-MM-SS-mmm_<label>.tar.gz` (sections 3
and 6) positionally: four digit year, two digit month, day, hour, minute and
second, three digit milliseconds, the literal separators shown, then the
label, then the literal `.tar.gz` suffix. -/
def parse_backup_file_name (s : String) : Option ParsedBackupName := do
  let cs0 := s.toList
  let (y, cs1) ← parse4 cs0
  let cs2 ← expectChar '-' cs1
  let (mo, cs3) ← parse2 cs2
  let cs4 ← expectChar '-' cs3
  let (d, cs5) ← parse2 cs4
  let cs6 ← expectChar '_' cs5
  let (h, cs7) ← parse2 cs6
  let cs8 ← expectChar '-' cs7
  let (mi, cs9) ← parse2 cs8
  let cs10 ← expectChar '-' cs9
  let (sec, cs11) ← parse2 cs10
  let cs12 ← expectChar '-' cs11
  let (ms, cs13) ← parse3 cs12
  let cs14 ← expectChar '_' cs13
  let lab ← dropSuffix ".tar.gz".toList cs14
  pure ⟨y, mo, d, h, mi, sec, ms, String.mk lab⟩


/-! ## Concrete remote-service snapshots used to settle individual claims -/

/-- C1 input: folder `F` has two live file children, but the service returns
only one entry per listing page, so the listing of `F` spans two pages. -/
def svcC1 : DriveService :=
  { files := [⟨"fa", "a.txt", "text/plain", ["F"], false, 0, [1]⟩,
              ⟨"fb", "b.txt", "text/plain", ["F"], false, 0, [2, 2]⟩],
    pageSize := 1, failingDeletes := [], uploadFails := false, newFileId := "new" }

/-- C2 input: the destination folder holds seven backups as this program
uploads them — MIME type `application/gzip`, names containing the label
`backup` — created oldest (`b1`) to newest (`b7`). -/
def svcC2 : DriveService :=
  { files := [⟨"b1", "b1_backup.tar.gz", "application/gzip", ["dest"], false, 1, []⟩,
              ⟨"b2", "b2_backup.tar.gz", "application/gzip", ["dest"], false, 2, []⟩,
              ⟨"b3", "b3_backup.tar.gz", "application/gzip", ["dest"], false, 3, []⟩,
              ⟨"b4", "b4_backup.tar.gz", "application/gzip", ["dest"], false, 4, []⟩,
              ⟨"b5", "b5_backup.tar.gz", "application/gzip", ["dest"], false, 5, []⟩,
              ⟨"b6", "b6_backup.tar.gz", "application/gzip", ["dest"], false, 6, []⟩,
              ⟨"b7", "b7_backup.tar.gz", "application/gzip", ["dest"], false, 7, []⟩],
    pageSize := 100, failingDeletes := [], uploadFails := false, newFileId := "new" }

/-- C4 input: three zip backups in the destination; with one version kept,
the two oldest (`z2` then `z1`) are selected for deletion, and the delete
call for `z2` raises. -/
def svcC4 : DriveService :=
  { files := [⟨"z1", "z1_backup.zip", "application/zip", ["dest"], false, 1, []⟩,
              ⟨"z2", "z2_backup.zip", "application/zip", ["dest"], false, 2, []⟩,
              ⟨"z3", "z3_backup.zip", "application/zip", ["dest"], false, 3, []⟩],
    pageSize := 100, failingDeletes := ["z2"], uploadFails := false, newFileId := "new" }

/-- C5 input: the source folder is empty and the upload succeeds, so the
backup stage completes; the destination holds two old zip backups and the
delete call for the older one (`z1`) raises during retention. -/
def svcC5 : DriveService :=
  { files := [⟨"z1", "z1_backup.zip", "application/zip", ["dest"], false, 1, []⟩,
              ⟨"z2", "z2_backup.zip", "application/zip", ["dest"], false, 2, []⟩],
    pageSize := 100, failingDeletes := ["z1"], uploadFails := false, newFileId := "up1" }

/-- C6 input: one source file to archive, and the upload call raises. -/
def svcC6fail : DriveService :=
  { files := [⟨"fa", "a.txt", "text/plain", ["src"], false, 0, [7]⟩],
    pageSize := 100, failingDeletes := [], uploadFails := true, newFileId := "up1" }

/-- The same run as `svcC6fail` but with a succeeding upload. -/
def svcC6ok : DriveService :=
  { svcC6fail with uploadFails := false }

/-- C8 input: three zip backups in the destination and one version kept, so
two deletions are performed, and both delete calls succeed. -/
def svcC8 : DriveService :=
  { files := [⟨"z1", "z1_backup.zip", "application/zip", ["dest"], false, 1, []⟩,
              ⟨"z2", "z2_backup.zip", "application/zip", ["dest"], false, 2, []⟩,
              ⟨"z3", "z3_backup.zip", "application/zip", ["dest"], false, 3, []⟩],
    pageSize := 100, failingDeletes := [], uploadFails := false, newFileId := "new" }

/-- C3 witness input: one source file of two bytes under folder `F`. -/
def svcC3 : DriveService :=
  { files := [⟨"fa", "a.txt", "text/plain", ["F"], false, 0, [9, 9]⟩],
    pageSize := 100, failingDeletes := [], uploadFails := false, newFileId := "new" }

/-- The archive the walker produces on `svcC3`. -/
def outC3 : List ArchiveEntry := [⟨"a.txt", 2, [9, 9]⟩]

/-- C7 witness input. -/
def tC7 : Timestamp := ⟨2026, 10, 12, 13, 30, 5, 123456⟩

/-- C10 witness input: an empty source tree and a succeeding upload. -/
def svcC10 : DriveService :=
  { files := [], pageSize := 100, failingDeletes := [], uploadFails := false,
    newFileId := "up1" }

/-- C10 witness input: the creation time of the uploaded archive. -/
def tC10 : Timestamp := ⟨2026, 1, 2, 3, 4, 5, 6⟩

/-- The remote file the C10 witness run uploads. -/
def fC10 : DFile := uploadedFile svcC10 "dest" (backup_file_name tC10 "backup")

/-- The backup-stage outcome of the C10 witness run. -/
def bC10 : BackupResult :=
  { backupFileName := backup_file_name tC10 "backup", entries := [],
    uploaded := some fC10, stagingRemoved := true, raised := false }

/-- C9 input: the remote service reports folder `A` as a child of itself
(a cyclic folder graph). -/
def loopFolder : DFile :=
  ⟨"A", "loop", "application/vnd.google-apps.folder", ["A"], false, 0, []⟩

/-- The service whose folder graph contains the `A -> A` cycle. -/
def svcC9 : DriveService :=
  { files := [loopFolder], pageSize := 100, failingDeletes := [], uploadFails := false,
    newFileId := "new" }

/-! ## Claim theorems -/

/-- C1: refuted as stated — code_bug evidence.  The claim requires the walker
to follow listing continuation tokens exhaustively, so that the archive
holds every reachable live (folder-path, file-name) pair.  On `svcC1`,
folder `F` has the two live children `a.txt` and `b.txt` and its listing
spans two pages (the first page holds fewer entries than the full listing);
the code issues exactly one `files().list` call per folder and never passes
`nextPageToken`, so the produced archive holds only the first-page entry
`a.txt` and silently omits the reachable file `b.txt`. -/
theorem c1_walker_reads_only_first_page :
    (add_files_to_archive svcC1 2 "F" "").map (fun es => es.map ArchiveEntry.name) =
        some ["a.txt"] ∧
    (listChildren svcC1 "F").map DFile.name = ["a.txt", "b.txt"] ∧
    svcC1.pageSize < (listChildren svcC1 "F").length := by
  decide

/-- C2: refuted as stated — code_bug evidence.  On `svcC2` the destination
folder holds `M = 7` backups matching the backup label (the seven archives
this program itself uploads, MIME type `application/gzip`), and
`versionsToKeep = 5`, so the claim requires `max(0, 7 - 5) = 2` attempted
deletions.  The retention query of `delete_old_backups` additionally filters
on `mimeType='application/zip'`, matches none of the seven, and attempts
zero deletions. -/
theorem c2_prune_misses_label_matching_backups :
    (svcC2.files.filter (fun f =>
        f.parents.contains "dest" && strContains f.name "backup" && !f.trashed)).length = 7 ∧
    pruneMatches svcC2 "dest" "backup" = [] ∧
    (delete_old_backups svcC2 "dest" 5 "backup").attempted = [] := by
  decide

/-- C4: refuted as stated — code_bug evidence.  On `svcC4` with one version
kept, two files (`z2`, the newer, then `z1`) are selected for deletion; the
delete call for `z2` raises, and because the loop body has no `try`/`except`
the exception aborts the loop: `z1`'s deletion is never attempted, so a
single failure does short-circuit the remaining deletions. -/
theorem c4_deletion_failure_short_circuits :
    (((sortByCreatedDesc (pruneMatches svcC4 "dest" "backup")).take svcC4.pageSize).drop 1).map
        DFile.id = ["z2", "z1"] ∧
    (delete_old_backups svcC4 "dest" 1 "backup").attempted = ["z2"] ∧
    (delete_old_backups svcC4 "dest" 1 "backup").raised = some "z2" := by
  decide

/-- C5: refuted as stated — code_bug evidence.  On `svcC5` the archive is
built and uploaded without error (`backup.raised = false`), then the
retention stage raises while deleting `z1`; `main` wraps
`delete_old_backups` in no exception handler, so the exception propagates
and the run produces no success response (`response = none`) although
archive creation and upload both succeeded. -/
theorem c5_retention_failure_fails_the_run :
    (main_handler svcC5 1 ["src"] "dest" "backup" 1 ⟨2026, 1, 2, 3, 4, 5, 6⟩).map
        (fun r => (r.backup.raised, r.prune.map PruneResult.raised, r.response)) =
      some (false, some (some "z1"), none) := by
  decide

/-- C6: refuted as stated — code_bug evidence.  `os.remove` on the staging
archive runs only on the line after a successful upload call: on `svcC6fail`
the upload raises and the staging artifact is not removed
(`stagingRemoved = false`), while the otherwise identical run `svcC6ok`
with a succeeding upload does remove it — so cleanup happens on the success
path only, not on every exit path. -/
theorem c6_staging_artifact_leaks_on_upload_failure :
    (backup_folder svcC6fail 2 ["src"] "dest" "backup" ⟨2026, 1, 2, 3, 4, 5, 6⟩).map
        (fun b => (b.raised, b.stagingRemoved)) = some (true, false) ∧
    (backup_folder svcC6ok 2 ["src"] "dest" "backup" ⟨2026, 1, 2, 3, 4, 5, 6⟩).map
        (fun b => (b.raised, b.stagingRemoved)) = some (false, true) := by
  decide

/-- C9: refuted as stated — code_bug evidence.  The walker tracks no visited
folder ids and recurses by plain function calls; on the cyclic folder graph
of `svcC9` (folder `A` listed as its own child) the recursion exceeds every
finite depth bound `fuel`, i.e. the Python code recurses without bound
instead of terminating. -/
theorem c9_walker_diverges_on_cyclic_folder_graph :
    ∀ (fuel : Nat) (path : String), add_files_to_archive svcC9 fuel "A" path = none := by
  intro fuel
  induction fuel with
  | zero => intro path; rfl
  | succ f ih =>
    intro path
    have hl : (listChildren svcC9 "A").take svcC9.pageSize = [loopFolder] := by decide
    rw [add_files_to_archive, hl]
    simp [walkStep, loopFolder, ih]

/-! ## Helper lemmas -/

/-- Every tar entry produced by the per-item fold has its declared size equal
to the number of bytes written for it, provided the recursive walk into
sub-folders already has that property. -/
theorem foldr_walkStep_sizes
    (w : String → String → Option (List ArchiveEntry))
    (hw : ∀ fid p out, w fid p = some out → ∀ e ∈ out, e.size = e.written.length) :
    ∀ (items : List DFile) (currentPath : String) (out : List ArchiveEntry),
      items.foldr (walkStep w currentPath) (some []) = some out →
      ∀ e ∈ out, e.size = e.written.length := by
  intro items
  induction items with
  | nil =>
    intro p out h e he
    simp only [List.foldr] at h
    injection h with h
    rw [← h] at he
    cases he
  | cons item rest ih =>
    intro p out h e he
    simp only [List.foldr] at h
    cases hr : rest.foldr (walkStep w p) (some []) with
    | none =>
      rw [hr] at h
      simp [walkStep] at h
    | some restOut =>
      rw [hr] at h
      simp only [walkStep] at h
      by_cases hm : item.mimeType = "application/vnd.google-apps.folder"
      · rw [if_pos hm] at h
        cases hs : w item.id (pathJoin p item.name) with
        | none => rw [hs] at h; cases h
        | some sub =>
          rw [hs] at h
          injection h with h
          rw [← h] at he
          rcases List.mem_append.mp he with h1 | h2
          · exact hw _ _ _ hs e h1
          · exact ih p restOut hr e h2
      · rw [if_neg hm] at h
        injection h with h
        rw [← h] at he
        rcases List.mem_cons.mp he with h1 | h2
        · rw [h1]
          simp [downloadEntry, List.take_length]
        · exact ih p restOut hr e h2

/-- The walker yields only entries whose declared size equals the number of
bytes written for them. -/
theorem add_files_sizes (svc : DriveService) :
    ∀ (fuel : Nat) (folderId currentPath : String) (out : List ArchiveEntry),
      add_files_to_archive svc fuel folderId currentPath = some out →
      ∀ e ∈ out, e.size = e.written.length := by
  intro fuel
  induction fuel with
  | zero => intro fid p out h; cases h
  | succ f ih =>
    intro fid p out h
    simp only [add_files_to_archive] at h
    exact foldr_walkStep_sizes (add_files_to_archive svc f) ih _ p out h

/-- C3: confirmed.  For every file the walker yields, the archive entry's
declared header size equals the exact byte length of the content fetched for
it, and exactly those fetched bytes are written: `downloadEntry` (the embedding
of `get_media` + `MediaIoBaseDownload` + `tarinfo.size = nbytes` +
`tar.addfile`) records size = fetched length and writes the fetched bytes
themselves, and every entry of any completed walk satisfies
`size = written.length`. -/
theorem c3_declared_size_matches_written_bytes
    (svc : DriveService) (fuel : Nat) (folderId currentPath : String)
    (out : List ArchiveEntry)
    (h : add_files_to_archive svc fuel folderId currentPath = some out) :
    (∀ e ∈ out, e.size = e.written.length) ∧
    (∀ (p : String) (item : DFile),
      downloadEntry p item = ⟨p, item.content.length, item.content⟩) := by
  refine ⟨add_files_sizes svc fuel folderId currentPath out h, ?_⟩
  intro p item
  simp [downloadEntry, List.take_length]

/-- C3 witness: on the concrete service `svcC3` the walk completes with
`outC3`, and its entry declares size 2 for its 2 written bytes. -/
theorem c3_witness :
    (⟨"a.txt", 2, [9, 9]⟩ : ArchiveEntry).size =
      (⟨"a.txt", 2, [9, 9]⟩ : ArchiveEntry).written.length :=
  (c3_declared_size_matches_written_bytes svcC3 2 "F" "" outC3 (by decide)).1 _ (by decide)

/-- Everything the retention query matches has MIME type `application/zip`. -/
theorem pruneMatches_mimeType (svc : DriveService) (destId label : String) :
    ∀ g ∈ pruneMatches svc destId label, g.mimeType = "application/zip" := by
  intro g hg
  rcases List.mem_filter.mp hg with ⟨-, hp⟩
  simp only [Bool.and_eq_true, beq_iff_eq] at hp
  exact hp.1.2

/-- Membership in the insertion step of the creation-time sort. -/
theorem mem_insertDesc {g f : DFile} : ∀ {l : List DFile},
    g ∈ insertDesc f l ↔ g = f ∨ g ∈ l := by
  intro l
  induction l with
  | nil => simp [insertDesc]
  | cons a as ih =>
    simp only [insertDesc]
    by_cases h : a.createdTime ≤ f.createdTime
    · rw [if_pos h]
      simp [List.mem_cons]
    · rw [if_neg h]
      simp only [List.mem_cons, ih]
      tauto

/-- The creation-time sort permutes but never invents or drops files. -/
theorem mem_sortByCreatedDesc {g : DFile} : ∀ {l : List DFile},
    g ∈ sortByCreatedDesc l ↔ g ∈ l := by
  intro l
  induction l with
  | nil => simp [sortByCreatedDesc]
  | cons f fs ih => simp [sortByCreatedDesc, mem_insertDesc, ih, List.mem_cons]

/-- Every id the deletion loop attempts is the id of a file in its input. -/
theorem deleteLoop_attempted_from (svc : DriveService) :
    ∀ (fs : List DFile) (i : String), i ∈ (deleteLoop svc fs).1 → ∃ f ∈ fs, f.id = i := by
  intro fs
  induction fs with
  | nil => intro i hi; simp [deleteLoop] at hi
  | cons f fs ih =>
    intro i hi
    simp only [deleteLoop] at hi
    by_cases hfail : svc.failingDeletes.contains f.id
    · rw [if_pos hfail] at hi
      simp only [List.mem_singleton] at hi
      exact ⟨f, List.mem_cons_self f fs, hi.symm⟩
    · rw [if_neg hfail] at hi
      rcases List.mem_cons.mp hi with h1 | h2
      · exact ⟨f, List.mem_cons_self f fs, h1.symm⟩
      · rcases ih i h2 with ⟨g, hg, hgid⟩
        exact ⟨g, List.mem_cons_of_mem f hg, hgid⟩

/-- C10: confirmed.  The retention query only ever matches files of MIME
type `application/zip`, while `backup_folder` uploads its archive with MIME
type `application/gzip`; hence the uploaded archive is never a member of the
retention matched set of any remote state, and every deletion the retention
loop attempts targets the id of an `application/zip` match — the program
never deletes its own backups. -/
theorem c10_uploaded_archive_never_pruned
    (svc svc2 : DriveService) (fuel versions : Nat) (srcIds : List String)
    (destId label destId2 label2 : String) (t : Timestamp)
    (b : BackupResult) (f : DFile)
    (hb : backup_folder svc fuel srcIds destId label t = some b)
    (hf : b.uploaded = some f) :
    f.mimeType = "application/gzip" ∧
    (∀ g ∈ pruneMatches svc2 destId2 label2, g.mimeType = "application/zip") ∧
    f ∉ pruneMatches svc2 destId2 label2 ∧
    (∀ i ∈ (delete_old_backups svc2 destId2 versions label2).attempted,
      ∃ g ∈ pruneMatches svc2 destId2 label2, g.id = i ∧ g.mimeType = "application/zip") := by
  have hmime : f.mimeType = "application/gzip" := by
    unfold backup_folder at hb
    cases hw : walkAll svc fuel srcIds with
    | none => rw [hw] at hb; cases hb
    | some entries =>
      rw [hw] at hb
      by_cases hu : svc.uploadFails
      · simp only [hu, if_true, Option.some.injEq] at hb
        subst hb
        simp at hf
      · simp only [hu, if_false, Bool.false_eq_true, Option.some.injEq] at hb
        subst hb
        simp only [Option.some.injEq] at hf
        rw [← hf]
        rfl
  refine ⟨hmime, pruneMatches_mimeType svc2 destId2 label2, ?_, ?_⟩
  · intro hmem
    have hz := pruneMatches_mimeType svc2 destId2 label2 f hmem
    rw [hmime] at hz
    exact absurd hz (by decide)
  · intro i hi
    unfold delete_old_backups at hi
    by_cases hlen :
        versions <
          ((sortByCreatedDesc (pruneMatches svc2 destId2 label2)).take svc2.pageSize).length
    · rw [if_pos hlen] at hi
      rcases deleteLoop_attempted_from svc2 _ i hi with ⟨g, hg, hgid⟩
      have hg2 : g ∈ pruneMatches svc2 destId2 label2 :=
        mem_sortByCreatedDesc.mp (List.mem_of_mem_take (List.mem_of_mem_drop hg))
      exact ⟨g, hg2, hgid, pruneMatches_mimeType svc2 destId2 label2 g hg2⟩
    · rw [if_neg hlen] at hi
      cases hi

/-- C10 witness: the concrete run on `svcC10` uploads `fC10`; the theorem's
conclusions hold for it against the post-upload state. -/
theorem c10_witness :
    fC10.mimeType = "application/gzip" ∧
    (∀ g ∈ pruneMatches (afterUpload svcC10 fC10) "dest" "backup",
      g.mimeType = "application/zip") ∧
    fC10 ∉ pruneMatches (afterUpload svcC10 fC10) "dest" "backup" ∧
    (∀ i ∈ (delete_old_backups (afterUpload svcC10 fC10) "dest" 5 "backup").attempted,
      ∃ g ∈ pruneMatches (afterUpload svcC10 fC10) "dest" "backup",
        g.id = i ∧ g.mimeType = "application/zip") :=
  c10_uploaded_archive_never_pruned svcC10 (afterUpload svcC10 fC10) 1 5 ["src"]
    "dest" "backup" "dest" "backup" tC10 bC10 fC10 (by decide) rfl

/-- With no failing delete calls the deletion loop attempts every input file
and raises nothing. -/
theorem deleteLoop_complete (svc : DriveService) (hok : svc.failingDeletes = []) :
    ∀ fs : List DFile, (deleteLoop svc fs).1.length = fs.length ∧ (deleteLoop svc fs).2 = none := by
  intro fs
  induction fs with
  | nil => exact ⟨rfl, rfl⟩
  | cons f fs ih =>
    have hfail : svc.failingDeletes.contains f.id = false := by
      rw [hok]; rfl
    simp only [deleteLoop, hfail]
    simpa using ih

/-- C8 counterexample: on `svcC8` the retention run performs two deletions
(`z2` then `z1`, both succeeding), yet the call returns `None` — not the
number of deletions performed — so the claimed contract
`prune -> number of deletions` does not hold. -/
theorem c8_counterexample :
    (delete_old_backups svcC8 "dest" 1 "backup").attempted = ["z2", "z1"] ∧
    (delete_old_backups svcC8 "dest" 1 "backup").retVal = none := by
  decide

/-- C8 amended: `delete_old_backups` performs the retention deletions — with
no failing delete call it attempts exactly `max(0, M' - versionsToKeep)`
deletions, where `M'` is the number of files its listing returned
(truncated-subtraction on Nat is exactly that max) — but its Python body has
no `return` statement, so the call returns `None` rather than the count. -/
theorem c8_prune_deletes_but_returns_none (svc : DriveService) (destId label : String)
    (n : Nat) (hok : svc.failingDeletes = []) :
    (delete_old_backups svc destId n label).retVal = none ∧
    (delete_old_backups svc destId n label).attempted.length =
      ((sortByCreatedDesc (pruneMatches svc destId label)).take svc.pageSize).length - n := by
  unfold delete_old_backups
  by_cases hlen :
      n < ((sortByCreatedDesc (pruneMatches svc destId label)).take svc.pageSize).length
  · rw [if_pos hlen]
    exact ⟨rfl, by rw [(deleteLoop_complete svc hok _).1, List.length_drop]⟩
  · rw [if_neg hlen]
    refine ⟨rfl, ?_⟩
    simp only [List.length_nil]
    omega

/-- C8 witness: the amended statement instantiated on the concrete retention
run `svcC8` (three matches, one kept: two deletions, return value `None`). -/
theorem c8_witness :
    (delete_old_backups svcC8 "dest" 1 "backup").retVal = none ∧
    (delete_old_backups svcC8 "dest" 1 "backup").attempted.length =
      ((sortByCreatedDesc (pruneMatches svcC8 "dest" "backup")).take svcC8.pageSize).length - 1 :=
  c8_prune_deletes_but_returns_none svcC8 "dest" "backup" 1 rfl

/-- Reading back the digit character of `n` yields `n % 10`. -/
theorem digitVal_digitChar (n : Nat) : digitVal (digitChar n) = some (n % 10) := by
  unfold digitChar
  have h : n % 10 < 10 := Nat.mod_lt _ (by norm_num)
  revert h
  generalize n % 10 = m
  intro h
  interval_cases m <;> decide

/-- `parse2` on two digit characters. -/
theorem parse2_digitChars (a b : Nat) (rest : List Char) :
    parse2 (digitChar a :: digitChar b :: rest) = some (10 * (a % 10) + b % 10, rest) := by
  simp [parse2, digitVal_digitChar]

/-- `parse3` on three digit characters. -/
theorem parse3_digitChars (a b c : Nat) (rest : List Char) :
    parse3 (digitChar a :: digitChar b :: digitChar c :: rest) =
      some (100 * (a % 10) + 10 * (b % 10) + c % 10, rest) := by
  simp [parse3, digitVal_digitChar]

/-- `parse4` on four digit characters. -/
theorem parse4_digitChars (a b c d : Nat) (rest : List Char) :
    parse4 (digitChar a :: digitChar b :: digitChar c :: digitChar d :: rest) =
      some (1000 * (a % 10) + 100 * (b % 10) + 10 * (c % 10) + d % 10, rest) := by
  simp [parse4, digitVal_digitChar]

/-- `expectChar` on the expected character. -/
theorem expectChar_self (c : Char) (rest : List Char) :
    expectChar c (c :: rest) = some rest := by
  simp [expectChar]

/-- Stripping a suffix that is literally there succeeds and leaves the
front. -/
theorem dropSuffix_append (tail l : List Char) :
    dropSuffix tail (l ++ tail) = some l := by
  unfold dropSuffix
  have h1 : (l ++ tail).reverse.take tail.length = tail.reverse := by
    rw [List.reverse_append, ← List.length_reverse tail, List.take_left]
  have h2 : (l ++ tail).length - tail.length = l.length := by
    simp [List.length_append]
  rw [h1, if_pos rfl, h2, List.take_left]

/-- `toList` distributes over string append. -/
theorem string_toList_append (a b : String) : (a ++ b).toList = a.toList ++ b.toList := rfl

/-- `toList` of a packed character list. -/
theorem string_toList_mk (l : List Char) : (String.mk l).toList = l := rfl

/-- Packing the characters of a string gives the string back. -/
theorem string_mk_toList (s : String) : String.mk s.toList = s := rfl

/-- The character list of the literal suffix `.tar.gz`. -/
theorem tarGz_toList : ".tar.gz".toList = ['.', 't', 'a', 'r', '.', 'g', 'z'] := rfl

/-- The character list of the literal separator `_`. -/
theorem underscore_toList : "_".toList = ['_'] := rfl

/-- The strftime stamp written out character by character. -/
theorem strftimeStamp_eq (t : Timestamp) :
    strftimeStamp t =
      [digitChar (t.year / 1000), digitChar (t.year / 100),
       digitChar (t.year / 10), digitChar t.year, '-',
       digitChar (t.month / 10), digitChar t.month, '-',
       digitChar (t.day / 10), digitChar t.day, '_',
       digitChar (t.hour / 10), digitChar t.hour, '-',
       digitChar (t.minute / 10), digitChar t.minute, '-',
       digitChar (t.second / 10), digitChar t.second, '-',
       digitChar (t.micro / 100000), digitChar (t.micro / 10000),
       digitChar (t.micro / 1000), digitChar (t.micro / 100),
       digitChar (t.micro / 10), digitChar t.micro] := by
  simp [strftimeStamp, pad4, pad2, pad6]

/-- Slicing off the last three characters leaves the millisecond-precision
stamp. -/
theorem strftimeStamp_sliced (t : Timestamp) :
    (strftimeStamp t).dropLast.dropLast.dropLast =
      [digitChar (t.year / 1000), digitChar (t.year / 100),
       digitChar (t.year / 10), digitChar t.year, '-',
       digitChar (t.month / 10), digitChar t.month, '-',
       digitChar (t.day / 10), digitChar t.day, '_',
       digitChar (t.hour / 10), digitChar t.hour, '-',
       digitChar (t.minute / 10), digitChar t.minute, '-',
       digitChar (t.second / 10), digitChar t.second, '-',
       digitChar (t.micro / 100000), digitChar (t.micro / 10000),
       digitChar (t.micro / 1000)] := by
  rw [strftimeStamp_eq]
  rfl

/-- The character shape of a produced backup file name: the twenty-three
timestamp characters and separators, the label characters, the suffix. -/
theorem backup_file_name_toList (t : Timestamp) (label : String) :
    (backup_file_name t label).toList =
      digitChar (t.year / 1000) :: digitChar (t.year / 100) ::
      digitChar (t.year / 10) :: digitChar t.year :: '-' ::
      digitChar (t.month / 10) :: digitChar t.month :: '-' ::
      digitChar (t.day / 10) :: digitChar t.day :: '_' ::
      digitChar (t.hour / 10) :: digitChar t.hour :: '-' ::
      digitChar (t.minute / 10) :: digitChar t.minute :: '-' ::
      digitChar (t.second / 10) :: digitChar t.second :: '-' ::
      digitChar (t.micro / 100000) :: digitChar (t.micro / 10000) ::
      digitChar (t.micro / 1000) :: '_' ::
      (label.toList ++ ['.', 't', 'a', 'r', '.', 'g', 'z']) := by
  unfold backup_file_name
  rw [string_toList_append, string_toList_append, string_toList_append,
    string_toList_mk, strftimeStamp_sliced, underscore_toList, tarGz_toList]
  simp [List.append_assoc]

set_option maxHeartbeats 1000000 in
/-- C7: confirmed.  A backup file name produced at time `t` with label
`label` follows the `YYYY-MM-DD_HH-MM-SS-mmm_<label>.tar.gz` format: parsing
it back recovers the calendar fields of `t` exactly (in particular a
timestamp within the same second), the encoded milliseconds
`t.micro / 1000`, and the label.  The range hypotheses are the field ranges
`datetime` guarantees (stated a little more loosely), plus a four-digit
year. -/
theorem c7_naming_round_trip (t : Timestamp) (label : String)
    (hy1 : 1000 ≤ t.year) (hy2 : t.year < 10000)
    (hmo : t.month < 100) (hd : t.day < 100) (hh : t.hour < 100)
    (hmi : t.minute < 100) (hs : t.second < 100) (hmic : t.micro < 1000000) :
    parse_backup_file_name (backup_file_name t label) =
      some ⟨t.year, t.month, t.day, t.hour, t.minute, t.second, t.micro / 1000, label⟩ := by
  unfold parse_backup_file_name
  rw [backup_file_name_toList]
  rw [tarGz_toList]
  simp only [Option.bind_eq_bind]
  simp only [parse4_digitChars]
  simp only [Option.some_bind]
  simp only [expectChar_self]
  simp only [Option.some_bind]
  simp only [parse2_digitChars]
  simp only [Option.some_bind]
  simp only [expectChar_self]
  simp only [Option.some_bind]
  simp only [parse2_digitChars]
  simp only [Option.some_bind]
  simp only [expectChar_self]
  simp only [Option.some_bind]
  simp only [parse2_digitChars]
  simp only [Option.some_bind]
  simp only [expectChar_self]
  simp only [Option.some_bind]
  simp only [parse2_digitChars]
  simp only [Option.some_bind]
  simp only [expectChar_self]
  simp only [Option.some_bind]
  simp only [parse2_digitChars]
  simp only [Option.some_bind]
  simp only [expectChar_self]
  simp only [Option.some_bind]
  simp only [parse3_digitChars]
  simp only [Option.some_bind]
  simp only [expectChar_self]
  simp only [Option.some_bind]
  simp only [dropSuffix_append]
  simp only [Option.some_bind]
  simp only [Option.pure_def]
  simp only [Option.some.injEq, ParsedBackupName.mk.injEq]
  refine ⟨?_, ?_, ?_, ?_, ?_, ?_, ?_, string_mk_toList label⟩ <;> omega

/-- C7 witness: the round trip evaluated at a concrete instant and label. -/
theorem c7_witness :
    parse_backup_file_name (backup_file_name tC7 "backup") =
      some ⟨2026, 10, 12, 13, 30, 5, 123, "backup"⟩ :=
  c7_naming_round_trip tC7 "backup" (by decide) (by decide) (by decide) (by decide)
    (by decide) (by decide) (by decide) (by decide)
